import Mathlib

/-!
# The IAM API-key authenticator

A shallow embedding of
`vendor/github.com/IBM/secret-utils-lib/pkg/authenticator/api-key.go`.

The file under study is a thin layer over three collaborators whose code lives
in other packages:

* `(*core.IamAuthenticator).GetToken`   – the cached-token lookup,
* `(*core.IamAuthenticator).RequestToken` – the forced token exchange,
* `token.CheckTokenLifeTime`            – the lifetime inspector,

plus the `*zap.Logger` sink and the constant `utils.ErrEmptyTokenResponse`,
declared in package `utils`.
The collaborators are taken as parameters (`Collaborators`).  Each is an
arbitrary function of the receiver and of an abstract environment state `W`
(network, clock, anything else they may read or write), and each returns Go's
full result tuple: a Go function of type `(T, error)` may return a non-zero
`T` together with a non-nil error, so results are pairs, not sums.

Every call the Go code makes on a collaborator is appended to a trace in
program order, so "is invoked n times" is a count over that trace.  The trace
records the calls made by `api-key.go` itself; what a collaborator does
internally is not visible to it.

The `uint64` lifetime is a `Nat`: the code does no arithmetic on it and hands
the inspector's value on unchanged.  Pointers (`aa`, `aa.authenticator`,
`aa.logger`) are non-nil, as `NewIamAuthenticator` makes them.
-/

namespace zap

/-- A non-nil `*zap.Logger`, identified by a handle. -/
structure Logger where
  handle : Nat
  deriving DecidableEq, Repr

end zap

/-- A non-nil value of Go's `error` interface.  The code only ever calls
`Error()` on it. -/
structure GoError where
  Error : String
  deriving DecidableEq, Repr

namespace utils

/-- The struct `utils.Error` as `api-key.go` builds it: a description and the
message of the backend error (the empty string when the literal leaves the
field out). -/
structure Error where
  Description : String
  BackendError : String := ""
  deriving DecidableEq, Repr

/-- Modelled from the spec: the string constant `utils.ErrEmptyTokenResponse`,
declared in package `utils` outside the sources at hand.  It is the description
of the empty-token-response error, which the spec makes a kind of its own,
distinct from token-fetch-failed; the value is the library's. -/
def ErrEmptyTokenResponse : String := "Empty token response received"

end utils

namespace core

/-- The struct `core.IamAuthenticator`.  `ApiKey` and `URL` are the two fields
`api-key.go` touches; `unexported` stands for every other field of the SDK
struct (token cache, HTTP client, ...). -/
structure IamAuthenticator (σ : Type) where
  ApiKey : String
  URL : String
  unexported : σ

/-- The struct behind `*core.IamTokenServerResponse`; `AccessToken` is the only
field `api-key.go` reads. -/
structure IamTokenServerResponse where
  AccessToken : String
  deriving DecidableEq, Repr

end core

namespace authenticator

/-- One observable action of `api-key.go`: a log line or a call on a
collaborator, with the argument the call received. -/
inductive Event (σ : Type) where
  /-- The call `logger.Info(msg)`. -/
  | Info (msg : String)
  /-- The call `logger.Error(msg)` or `logger.Error(msg, zap.Error(err))`. -/
  | Error (msg : String) (field : Option GoError)
  /-- The call `aa.authenticator.GetToken()` on the receiver as it was then. -/
  | GetToken (recv : core.IamAuthenticator σ)
  /-- The call `aa.authenticator.RequestToken()` on the receiver as it was then. -/
  | RequestToken (recv : core.IamAuthenticator σ)
  /-- The call `token.CheckTokenLifeTime(tokenString)`. -/
  | CheckTokenLifeTime (tokenString : String)

/-- Is the event a cached-token lookup? -/
def Event.isGetToken {σ : Type} : Event σ → Bool
  | .GetToken _ => true
  | _ => false

/-- Is the event a forced exchange? -/
def Event.isRequestToken {σ : Type} : Event σ → Bool
  | .RequestToken _ => true
  | _ => false

/-- Is the event a lifetime computation? -/
def Event.isCheckTokenLifeTime {σ : Type} : Event σ → Bool
  | .CheckTokenLifeTime _ => true
  | _ => false

/-- The code outside `api-key.go` that it depends on.  The methods of
`*core.IamAuthenticator` receive the pointed-to struct and the environment and
return their Go results together with the struct and the environment as they
leave them. -/
structure Collaborators (σ W : Type) where
  /-- The method `(*core.IamAuthenticator).GetToken() (string, error)`. -/
  GetToken : core.IamAuthenticator σ → W →
    (String × Option GoError) × core.IamAuthenticator σ × W
  /-- The method
  `(*core.IamAuthenticator).RequestToken() (*IamTokenServerResponse, error)`. -/
  RequestToken : core.IamAuthenticator σ → W →
    (Option core.IamTokenServerResponse × Option GoError) × core.IamAuthenticator σ × W
  /-- The function `token.CheckTokenLifeTime(tokenString string) (uint64, error)`. -/
  CheckTokenLifeTime : String → W → (Nat × Option GoError) × W

/-- The struct `APIKeyAuthenticator`.  The field `authenticator` is a pointer in
Go; here it is the pointed-to struct, and the methods that write through the
pointer return the updated value. -/
structure APIKeyAuthenticator (σ : Type) where
  authenticator : core.IamAuthenticator σ
  logger : zap.Logger
  isSecretEncrypted : Bool

/-- `NewIamAuthenticator`: both structs start from Go's zero value (`default`
for the unexported SDK fields), then the API key and the logger are stored.
The second component is the log output, the deferred line last. -/
def NewIamAuthenticator {σ : Type} [Inhabited σ] (apikey : String) (logger : zap.Logger) :
    APIKeyAuthenticator σ × List (Event σ) :=
  let aa : APIKeyAuthenticator σ :=
    { authenticator := { ApiKey := "", URL := "", unexported := default }
      logger := logger
      isSecretEncrypted := false }
  let aa := { aa with authenticator := { aa.authenticator with ApiKey := apikey } }
  (aa, [Event.Info "Initializing iam authenticator", Event.Info "Initialized iam authenticator"])

/-- What one call of `GetToken` leaves behind: the three Go results, the
authenticator and the environment after the call, and the events of the call
in program order. -/
structure GetTokenResult (σ W : Type) where
  token : String
  lifetime : Nat
  err : Option utils.Error
  aa : APIKeyAuthenticator σ
  world : W
  trace : List (Event σ)

/-- Lines 68-88 of `GetToken`, the code from `"Fetching fresh token"` to the end
of the function.  It is entered with the current value of the local
`tokenlifetime` and the events so far. -/
def APIKeyAuthenticator.fetchFresh {σ W : Type} (c : Collaborators σ W)
    (aa : APIKeyAuthenticator σ) (w : W) (tokenlifetime : Nat) (tr : List (Event σ)) :
    GetTokenResult σ W :=
  let tr := tr ++ [Event.Info "Fetching fresh token"]
  match c.RequestToken aa.authenticator w with
  | ((tokenResponse, err), auth1, w1) =>
    let tr := tr ++ [Event.RequestToken aa.authenticator]
    let aa1 := { aa with authenticator := auth1 }
    match err with
    | some e =>
      { token := "", lifetime := tokenlifetime
        err := some { Description := "Error fetching iam token using api key",
                      BackendError := e.Error }
        aa := aa1, world := w1
        trace := tr ++ [Event.Error "Error fetching fresh token" (some e)] }
    | none =>
      match tokenResponse with
      | none =>
        { token := "", lifetime := tokenlifetime
          err := some { Description := utils.ErrEmptyTokenResponse }
          aa := aa1, world := w1
          trace := tr ++ [Event.Error "Token response received is empty" none] }
      | some resp =>
        let iamtoken := resp.AccessToken
        match c.CheckTokenLifeTime iamtoken w1 with
        | ((tokenlifetime, err), w2) =>
          let tr := tr ++ [Event.CheckTokenLifeTime iamtoken]
          match err with
          | some e =>
            { token := "", lifetime := tokenlifetime
              err := some { Description := "Error fetching token lifetime",
                            BackendError := e.Error }
              aa := aa1, world := w2
              trace := tr ++ [Event.Error "Error fetching token lifetime for new token" (some e)] }
          | none =>
            { token := iamtoken, lifetime := tokenlifetime, err := none
              aa := aa1, world := w2
              trace := tr ++ [Event.Info "Successfully fetched IAM token and token lifetime"] }

/-- The method `GetToken`.  The locals `iamtoken`, `err` and `tokenlifetime`
start at their zero values; the block guarded by `!freshTokenRequired` either
returns or falls out of the `if` into `fetchFresh`. -/
def APIKeyAuthenticator.GetToken {σ W : Type} (c : Collaborators σ W)
    (aa : APIKeyAuthenticator σ) (w : W) (freshTokenRequired : Bool) : GetTokenResult σ W :=
  let tr := [Event.Info "Fetching IAM token using api key authenticator"]
  let tokenlifetime : Nat := 0
  if !freshTokenRequired then
    let tr := tr ++ [Event.Info "Request received to fetch existing token"]
    match c.GetToken aa.authenticator w with
    | ((iamtoken, err), auth1, w1) =>
      let tr := tr ++ [Event.GetToken aa.authenticator]
      let aa1 := { aa with authenticator := auth1 }
      match err with
      | some e =>
        { token := "", lifetime := tokenlifetime
          err := some { Description := "Error fetching iam token using api key",
                        BackendError := e.Error }
          aa := aa1, world := w1
          trace := tr ++ [Event.Error "Error fetching existing token" (some e)] }
      | none =>
        match c.CheckTokenLifeTime iamtoken w1 with
        | ((tokenlifetime, err), w2) =>
          let tr := tr ++ [Event.CheckTokenLifeTime iamtoken]
          match err with
          | none =>
            { token := iamtoken, lifetime := tokenlifetime, err := none
              aa := aa1, world := w2
              trace := tr ++ [Event.Info "Fetched iam token and token lifetime successfully"] }
          | some e =>
            aa1.fetchFresh c w2 tokenlifetime
              (tr ++ [Event.Error "Error fetching token lifetime of existing token" (some e)])
  else
    aa.fetchFresh c w tokenlifetime tr

/-- The method `GetSecret`. -/
def APIKeyAuthenticator.GetSecret {σ : Type} (aa : APIKeyAuthenticator σ) : String :=
  aa.authenticator.ApiKey

/-- The method `SetSecret`: a write to `aa.authenticator.ApiKey`. -/
def APIKeyAuthenticator.SetSecret {σ : Type} (aa : APIKeyAuthenticator σ) (secret : String) :
    APIKeyAuthenticator σ :=
  { aa with authenticator := { aa.authenticator with ApiKey := secret } }

/-- The method `SetURL`: a write to `aa.authenticator.URL`. -/
def APIKeyAuthenticator.SetURL {σ : Type} (aa : APIKeyAuthenticator σ) (url : String) :
    APIKeyAuthenticator σ :=
  { aa with authenticator := { aa.authenticator with URL := url } }

/-- The method `IsSecretEncrypted`. -/
def APIKeyAuthenticator.IsSecretEncrypted {σ : Type} (aa : APIKeyAuthenticator σ) : Bool :=
  aa.isSecretEncrypted

/-- The method `SetEncryption`. -/
def APIKeyAuthenticator.SetEncryption {σ : Type} (aa : APIKeyAuthenticator σ) (encrypted : Bool) :
    APIKeyAuthenticator σ :=
  { aa with isSecretEncrypted := encrypted }

/-- `GetToken aa w freshTokenRequired` reaches the forced exchange (line 68) with
the SDK authenticator `a` and the environment `w2`: either a fresh token was
demanded, and nothing has happened yet, or the cached lookup succeeded, leaving
`a`, and the lifetime computation on the cached token failed, leaving `w2`. -/
def ReachesExchange {σ W : Type} (c : Collaborators σ W) (aa : APIKeyAuthenticator σ) (w : W)
    (freshTokenRequired : Bool) (a : core.IamAuthenticator σ) (w2 : W) : Prop :=
  (freshTokenRequired = true ∧ a = aa.authenticator ∧ w2 = w) ∨
  (freshTokenRequired = false ∧ ∃ (t : String) (w1 : W) (l : Nat) (e : GoError),
    c.GetToken aa.authenticator w = ((t, none), a, w1) ∧
    c.CheckTokenLifeTime t w1 = ((l, some e), w2))

/-! ## A scripted environment

A concrete choice of collaborators, used to run the code on examples.  The
environment holds the answers the collaborators will give; the lifetime
inspector consumes its answers one per call, so it is stateful. -/

/-- The answers of the three collaborators. -/
structure Script where
  cached : String × Option GoError
  exchange : Option core.IamTokenServerResponse × Option GoError
  lifetimes : List (Nat × Option GoError)

/-- Collaborators that answer from the script. -/
def scripted : Collaborators Unit Script where
  GetToken a w := (w.cached, a, w)
  RequestToken a w := (w.exchange, a, w)
  CheckTokenLifeTime _ w := (w.lifetimes.headD (0, none), { w with lifetimes := w.lifetimes.tail })

/-- An authenticator as `NewIamAuthenticator "key-0"` builds it. -/
def sampleAuth : APIKeyAuthenticator Unit :=
  (NewIamAuthenticator "key-0" { handle := 0 }).1

/-- A valid cached token. -/
def scriptCachedOk : Script :=
  { cached := ("tok-A", none), exchange := (none, none), lifetimes := [(3600, none)] }

/-- The cached lookup fails. -/
def scriptCachedFail : Script :=
  { cached := ("", some { Error := "no token" }), exchange := (none, none), lifetimes := [] }

/-- A stale cached token, then a good exchange. -/
def scriptStale : Script :=
  { cached := ("tok-A", none)
    exchange := (some { AccessToken := "tok-B" }, none)
    lifetimes := [(0, some { Error := "token expired" }), (3600, none)] }

/-- A stale cached token, then an exchange that returns `(nil, nil)`. -/
def scriptStaleEmpty : Script :=
  { cached := ("tok-A", none)
    exchange := (none, none)
    lifetimes := [(0, some { Error := "token expired" })] }

/-- A stale cached token, then an exchange that fails. -/
def scriptStaleExchangeFail : Script :=
  { cached := ("tok-A", none)
    exchange := (none, some { Error := "connection refused" })
    lifetimes := [(0, some { Error := "token expired" })] }

/-- A good exchange whose token the inspector rejects, returning 7 with the
error. -/
def scriptFreshUndecodable : Script :=
  { cached := ("tok-A", none)
    exchange := (some { AccessToken := "tok-B" }, none)
    lifetimes := [(7, some { Error := "undecodable" })] }

/-! ## Shared lemmas -/

theorem fetchFresh_count_RequestToken {σ W : Type} (c : Collaborators σ W)
    (aa : APIKeyAuthenticator σ) (w : W) (l : Nat) (tr : List (Event σ)) :
    (aa.fetchFresh c w l tr).trace.countP Event.isRequestToken
      = tr.countP Event.isRequestToken + 1 := by
  unfold APIKeyAuthenticator.fetchFresh
  rcases hq : c.RequestToken aa.authenticator w with ⟨⟨resp, err⟩, a1, w1⟩
  cases err with
  | some e => simp [Event.isRequestToken]
  | none =>
    cases resp with
    | none => simp [Event.isRequestToken]
    | some r =>
      rcases hl : c.CheckTokenLifeTime r.AccessToken w1 with ⟨⟨l1, err1⟩, w2⟩
      cases err1 <;> simp [hl, Event.isRequestToken]

theorem fetchFresh_count_GetToken {σ W : Type} (c : Collaborators σ W)
    (aa : APIKeyAuthenticator σ) (w : W) (l : Nat) (tr : List (Event σ)) :
    (aa.fetchFresh c w l tr).trace.countP Event.isGetToken
      = tr.countP Event.isGetToken := by
  unfold APIKeyAuthenticator.fetchFresh
  rcases hq : c.RequestToken aa.authenticator w with ⟨⟨resp, err⟩, a1, w1⟩
  cases err with
  | some e => simp [Event.isGetToken]
  | none =>
    cases resp with
    | none => simp [Event.isGetToken]
    | some r =>
      rcases hl : c.CheckTokenLifeTime r.AccessToken w1 with ⟨⟨l1, err1⟩, w2⟩
      cases err1 <;> simp [hl, Event.isGetToken]

/-- The token and the error `fetchFresh` returns do not depend on the value of
`tokenlifetime` or on the events it was entered with. -/
theorem fetchFresh_token_err {σ W : Type} (c : Collaborators σ W)
    (aa : APIKeyAuthenticator σ) (w : W) (l l2 : Nat) (tr tr2 : List (Event σ)) :
    (aa.fetchFresh c w l tr).token = (aa.fetchFresh c w l2 tr2).token ∧
    (aa.fetchFresh c w l tr).err = (aa.fetchFresh c w l2 tr2).err := by
  unfold APIKeyAuthenticator.fetchFresh
  rcases hq : c.RequestToken aa.authenticator w with ⟨⟨resp, err⟩, a1, w1⟩
  cases err with
  | some e => simp
  | none =>
    cases resp with
    | none => simp
    | some r =>
      rcases hl : c.CheckTokenLifeTime r.AccessToken w1 with ⟨⟨l1, err1⟩, w2⟩
      cases err1 <;> simp [hl]

/-- On the stale-cache path `GetToken` is `fetchFresh`, entered with the
lifetime value the failed computation returned and the five events so far. -/
theorem GetToken_stale_eq {σ W : Type} (c : Collaborators σ W)
    (aa : APIKeyAuthenticator σ) (w : W) (t : String) (l0 : Nat) (e0 : GoError)
    (a1 : core.IamAuthenticator σ) (w1 w2 : W)
    (hget : c.GetToken aa.authenticator w = ((t, none), a1, w1))
    (hlife : c.CheckTokenLifeTime t w1 = ((l0, some e0), w2)) :
    aa.GetToken c w false
      = APIKeyAuthenticator.fetchFresh c { aa with authenticator := a1 } w2 l0
          [Event.Info "Fetching IAM token using api key authenticator",
            Event.Info "Request received to fetch existing token",
            Event.GetToken aa.authenticator, Event.CheckTokenLifeTime t,
            Event.Error "Error fetching token lifetime of existing token" (some e0)] := by
  simp [APIKeyAuthenticator.GetToken, hget, hlife]

/-- When `GetToken` reaches the forced exchange, the rest of the call is
`fetchFresh`, entered with events that hold no exchange, and a lifetime
computation and a cached lookup only on the fallback path. -/
theorem GetToken_eq_fetchFresh_of_reaches {σ W : Type} (c : Collaborators σ W)
    (aa : APIKeyAuthenticator σ) (w : W) (fresh : Bool) (a : core.IamAuthenticator σ) (w2 : W)
    (h : ReachesExchange c aa w fresh a w2) :
    ∃ (l : Nat) (tr : List (Event σ)),
      aa.GetToken c w fresh
        = APIKeyAuthenticator.fetchFresh c { aa with authenticator := a } w2 l tr ∧
      tr.countP Event.isRequestToken = 0 ∧
      tr.countP Event.isCheckTokenLifeTime = (if fresh then 0 else 1) ∧
      tr.countP Event.isGetToken = (if fresh then 0 else 1) := by
  rcases h with ⟨hf, ha, hw⟩ | ⟨hf, t, w1, l, e, hget, hlife⟩
  · subst hf ha hw
    exact ⟨0, [Event.Info "Fetching IAM token using api key authenticator"], rfl,
      by simp [Event.isRequestToken], by simp [Event.isCheckTokenLifeTime],
      by simp [Event.isGetToken]⟩
  · subst hf
    exact ⟨l, _, GetToken_stale_eq c aa w t l e a w1 w2 hget hlife,
      by simp [Event.isRequestToken], by simp [Event.isCheckTokenLifeTime],
      by simp [Event.isGetToken]⟩

/-- The events `fetchFresh` adds: the log line, the exchange on the receiver
as it is on entry, then events that hold no further exchange and no cached
lookup. -/
theorem fetchFresh_trace {σ W : Type} (c : Collaborators σ W)
    (aa : APIKeyAuthenticator σ) (w : W) (l : Nat) (tr : List (Event σ)) :
    ∃ post : List (Event σ),
      (aa.fetchFresh c w l tr).trace
        = tr ++ [Event.Info "Fetching fresh token", Event.RequestToken aa.authenticator] ++ post ∧
      post.countP Event.isRequestToken = 0 ∧ post.countP Event.isGetToken = 0 := by
  unfold APIKeyAuthenticator.fetchFresh
  rcases hq : c.RequestToken aa.authenticator w with ⟨⟨resp, err⟩, a1, w1⟩
  cases err with
  | some e =>
    exact ⟨[Event.Error "Error fetching fresh token" (some e)], by simp,
      by simp [Event.isRequestToken], by simp [Event.isGetToken]⟩
  | none =>
    cases resp with
    | none =>
      exact ⟨[Event.Error "Token response received is empty" none], by simp,
        by simp [Event.isRequestToken], by simp [Event.isGetToken]⟩
    | some r =>
      rcases hl : c.CheckTokenLifeTime r.AccessToken w1 with ⟨⟨l1, err1⟩, w2⟩
      cases err1 with
      | some e =>
        exact ⟨[Event.CheckTokenLifeTime r.AccessToken,
          Event.Error "Error fetching token lifetime for new token" (some e)], by simp [hl],
          by simp [Event.isRequestToken], by simp [Event.isGetToken]⟩
      | none =>
        exact ⟨[Event.CheckTokenLifeTime r.AccessToken,
          Event.Info "Successfully fetched IAM token and token lifetime"], by simp [hl],
          by simp [Event.isRequestToken], by simp [Event.isGetToken]⟩

/-- The shape of what `fetchFresh` returns.  Either it succeeds and the
lifetime is the one the inspector computed for the returned token, leaving the
final environment; or it fails with an empty token, and the lifetime is the
value of `tokenlifetime` on entry or the value the inspector returned together
with an error for a token it was asked about in this call. -/
theorem fetchFresh_shape {σ W : Type} (c : Collaborators σ W)
    (aa : APIKeyAuthenticator σ) (w : W) (l : Nat) (tr : List (Event σ)) :
    ((aa.fetchFresh c w l tr).err = none ∧
      ∃ wa : W, c.CheckTokenLifeTime (aa.fetchFresh c w l tr).token wa
        = (((aa.fetchFresh c w l tr).lifetime, none), (aa.fetchFresh c w l tr).world)) ∨
    ((aa.fetchFresh c w l tr).err ≠ none ∧ (aa.fetchFresh c w l tr).token = "" ∧
      ((aa.fetchFresh c w l tr).lifetime = l ∨
        ∃ (tok : String) (wa wb : W) (e : GoError),
          Event.CheckTokenLifeTime tok ∈ (aa.fetchFresh c w l tr).trace ∧
          c.CheckTokenLifeTime tok wa = (((aa.fetchFresh c w l tr).lifetime, some e), wb))) := by
  unfold APIKeyAuthenticator.fetchFresh
  rcases hq : c.RequestToken aa.authenticator w with ⟨⟨resp, err⟩, a1, w1⟩
  cases err with
  | some e => right; simp
  | none =>
    cases resp with
    | none => right; simp
    | some r =>
      rcases hl : c.CheckTokenLifeTime r.AccessToken w1 with ⟨⟨l1, err1⟩, w2⟩
      cases err1 with
      | some e =>
        right
        refine ⟨by simp [hl], by simp [hl], Or.inr ⟨r.AccessToken, w1, w2, e, ?_, ?_⟩⟩
        · simp [hl]
        · simp [hl]
      | none =>
        left
        exact ⟨by simp [hl], w1, by simp [hl]⟩

/-- Events present on entry stay in the trace `fetchFresh` returns. -/
theorem fetchFresh_trace_mem {σ W : Type} (c : Collaborators σ W)
    (aa : APIKeyAuthenticator σ) (w : W) (l : Nat) (tr : List (Event σ)) (ev : Event σ)
    (h : ev ∈ tr) : ev ∈ (aa.fetchFresh c w l tr).trace := by
  obtain ⟨post, hp, -, -⟩ := fetchFresh_trace c aa w l tr
  rw [hp]
  simp [h]

/-- The lifetime computations made before the forced exchange is reached: none
when a fresh token was demanded, and one, on the token the cached lookup
returned, on the stale-cache path.  The events on entry to `fetchFresh` hold no
exchange. -/
theorem GetToken_eq_fetchFresh_inspections {σ W : Type} (c : Collaborators σ W)
    (aa : APIKeyAuthenticator σ) (w : W) (fresh : Bool) (a : core.IamAuthenticator σ) (w2 : W)
    (h : ReachesExchange c aa w fresh a w2) :
    ∃ (l : Nat) (tr : List (Event σ)),
      aa.GetToken c w fresh
        = APIKeyAuthenticator.fetchFresh c { aa with authenticator := a } w2 l tr ∧
      tr.countP Event.isRequestToken = 0 ∧
      tr.filter Event.isCheckTokenLifeTime
        = (if fresh then []
            else [Event.CheckTokenLifeTime (c.GetToken aa.authenticator w).1.1]) := by
  rcases h with ⟨hf, ha, hw⟩ | ⟨hf, t, w1, l, e, hget, hlife⟩
  · subst hf ha hw
    exact ⟨0, [Event.Info "Fetching IAM token using api key authenticator"], rfl,
      by simp [Event.isRequestToken], by simp [Event.isCheckTokenLifeTime]⟩
  · subst hf
    exact ⟨l, _, GetToken_stale_eq c aa w t l e a w1 w2 hget hlife,
      by simp [Event.isRequestToken], by simp [Event.isCheckTokenLifeTime, hget]⟩

/-! ## The cached path -/

/-- C1: with `freshTokenRequired = false`, when the cached-token lookup
succeeds with `t` and the lifetime computation on `t` succeeds with `l`,
`GetToken` returns exactly `(t, l, nil)` and makes no forced exchange. -/
theorem GetToken_cached_success {σ W : Type} (c : Collaborators σ W)
    (aa : APIKeyAuthenticator σ) (w : W) (t : String) (l : Nat)
    (a1 : core.IamAuthenticator σ) (w1 w2 : W)
    (hget : c.GetToken aa.authenticator w = ((t, none), a1, w1))
    (hlife : c.CheckTokenLifeTime t w1 = ((l, none), w2)) :
    (aa.GetToken c w false).token = t ∧
    (aa.GetToken c w false).lifetime = l ∧
    (aa.GetToken c w false).err = none ∧
    (aa.GetToken c w false).trace.countP Event.isRequestToken = 0 := by
  simp [APIKeyAuthenticator.GetToken, hget, hlife, Event.isRequestToken]

theorem GetToken_cached_success_witness :
    scripted.GetToken sampleAuth.authenticator scriptCachedOk
      = (("tok-A", none), sampleAuth.authenticator, scriptCachedOk) ∧
    (sampleAuth.GetToken scripted scriptCachedOk false).token = "tok-A" ∧
    (sampleAuth.GetToken scripted scriptCachedOk false).lifetime = 3600 ∧
    (sampleAuth.GetToken scripted scriptCachedOk false).err = none ∧
    (sampleAuth.GetToken scripted scriptCachedOk false).trace.countP Event.isRequestToken = 0 :=
  ⟨rfl, GetToken_cached_success scripted sampleAuth scriptCachedOk "tok-A" 3600
    sampleAuth.authenticator scriptCachedOk { scriptCachedOk with lifetimes := [] } rfl rfl⟩

/-- C2: with `freshTokenRequired = false`, when the cached-token lookup succeeds
and the lifetime computation on the cached token fails, `GetToken` makes the
forced exchange exactly once and returns its result: the token and the error
are those of a forced request issued from the state the failed computation
left, and when the exchange yields a response with access token `t2` whose
lifetime computation succeeds with `l2`, the result is `(t2, l2, nil)`, so the
error of the cached token is not returned. -/
theorem GetToken_stale_cache_fallback {σ W : Type} (c : Collaborators σ W)
    (aa : APIKeyAuthenticator σ) (w : W) (t : String) (l0 : Nat) (e0 : GoError)
    (a1 : core.IamAuthenticator σ) (w1 w2 : W)
    (hget : c.GetToken aa.authenticator w = ((t, none), a1, w1))
    (hlife : c.CheckTokenLifeTime t w1 = ((l0, some e0), w2)) :
    (aa.GetToken c w false).trace.countP Event.isRequestToken = 1 ∧
    (aa.GetToken c w false).token
      = (APIKeyAuthenticator.GetToken c { aa with authenticator := a1 } w2 true).token ∧
    (aa.GetToken c w false).err
      = (APIKeyAuthenticator.GetToken c { aa with authenticator := a1 } w2 true).err ∧
    (∀ (resp : core.IamTokenServerResponse) (a2 : core.IamAuthenticator σ) (w3 w4 : W) (l2 : Nat),
      c.RequestToken a1 w2 = ((some resp, none), a2, w3) →
      c.CheckTokenLifeTime resp.AccessToken w3 = ((l2, none), w4) →
      (aa.GetToken c w false).token = resp.AccessToken ∧
      (aa.GetToken c w false).lifetime = l2 ∧
      (aa.GetToken c w false).err = none) := by
  have hG2 := GetToken_stale_eq c aa w t l0 e0 a1 w1 w2 hget hlife
  refine ⟨?_, ?_, ?_, ?_⟩
  · rw [hG2, fetchFresh_count_RequestToken]
    simp [Event.isRequestToken]
  · rw [hG2]
    simp only [APIKeyAuthenticator.GetToken, Bool.not_true, Bool.false_eq_true, if_false]
    exact (fetchFresh_token_err c _ w2 _ _ _ _).1
  · rw [hG2]
    simp only [APIKeyAuthenticator.GetToken, Bool.not_true, Bool.false_eq_true, if_false]
    exact (fetchFresh_token_err c _ w2 _ _ _ _).2
  · intro resp a2 w3 w4 l2 hreq hl2
    rw [hG2]
    simp [APIKeyAuthenticator.fetchFresh, hreq, hl2]

theorem GetToken_stale_cache_fallback_witness :
    (sampleAuth.GetToken scripted scriptStale false).trace.countP Event.isRequestToken = 1 ∧
    (sampleAuth.GetToken scripted scriptStale false).token = "tok-B" ∧
    (sampleAuth.GetToken scripted scriptStale false).lifetime = 3600 ∧
    (sampleAuth.GetToken scripted scriptStale false).err = none :=
  have h := GetToken_stale_cache_fallback scripted sampleAuth scriptStale "tok-A" 0
    { Error := "token expired" } sampleAuth.authenticator scriptStale
    { scriptStale with lifetimes := [(3600, none)] } rfl rfl
  ⟨h.1, h.2.2.2 { AccessToken := "tok-B" } sampleAuth.authenticator
    { scriptStale with lifetimes := [(3600, none)] } { scriptStale with lifetimes := [] } 3600
    rfl rfl⟩

/-- C4: with `freshTokenRequired = false`, when the cached-token lookup fails
with error `e`, `GetToken` returns an empty token and the error with
description "Error fetching iam token using api key" and backend error
`e.Error()`, and it does not fall through: neither the forced exchange nor the
lifetime computation is invoked. -/
theorem GetToken_cached_lookup_failure {σ W : Type} (c : Collaborators σ W)
    (aa : APIKeyAuthenticator σ) (w : W) (t : String) (e : GoError)
    (a1 : core.IamAuthenticator σ) (w1 : W)
    (hget : c.GetToken aa.authenticator w = ((t, some e), a1, w1)) :
    (aa.GetToken c w false).token = "" ∧
    (aa.GetToken c w false).err
      = some { Description := "Error fetching iam token using api key",
               BackendError := e.Error } ∧
    (aa.GetToken c w false).trace.countP Event.isRequestToken = 0 ∧
    (aa.GetToken c w false).trace.countP Event.isCheckTokenLifeTime = 0 := by
  simp [APIKeyAuthenticator.GetToken, hget, Event.isRequestToken, Event.isCheckTokenLifeTime]

theorem GetToken_cached_lookup_failure_witness :
    scripted.GetToken sampleAuth.authenticator scriptCachedFail
      = (("", some { Error := "no token" }), sampleAuth.authenticator, scriptCachedFail) ∧
    (sampleAuth.GetToken scripted scriptCachedFail false).token = "" ∧
    (sampleAuth.GetToken scripted scriptCachedFail false).err
      = some { Description := "Error fetching iam token using api key",
               BackendError := "no token" } ∧
    (sampleAuth.GetToken scripted scriptCachedFail false).trace.countP Event.isRequestToken = 0 ∧
    (sampleAuth.GetToken scripted scriptCachedFail false).trace.countP
      Event.isCheckTokenLifeTime = 0 :=
  ⟨rfl, GetToken_cached_lookup_failure scripted sampleAuth scriptCachedFail ""
    { Error := "no token" } sampleAuth.authenticator scriptCachedFail rfl⟩

/-! ## The forced path -/

/-- C3: `GetToken` with `freshTokenRequired = true` never makes the cached-token
lookup and makes the forced exchange exactly once, whatever the collaborators
do; and its whole result is the same when the cached-token lookup is replaced
by any other. -/
theorem GetToken_fresh_never_consults_cache {σ W : Type} (c : Collaborators σ W)
    (aa : APIKeyAuthenticator σ) (w : W)
    (g : core.IamAuthenticator σ → W → (String × Option GoError) × core.IamAuthenticator σ × W) :
    (aa.GetToken c w true).trace.countP Event.isGetToken = 0 ∧
    (aa.GetToken c w true).trace.countP Event.isRequestToken = 1 ∧
    aa.GetToken { c with GetToken := g } w true = aa.GetToken c w true := by
  refine ⟨?_, ?_, ?_⟩
  · simp only [APIKeyAuthenticator.GetToken, Bool.not_true, Bool.false_eq_true, if_false]
    rw [fetchFresh_count_GetToken]
    simp [Event.isGetToken]
  · simp only [APIKeyAuthenticator.GetToken, Bool.not_true, Bool.false_eq_true, if_false]
    rw [fetchFresh_count_RequestToken]
    simp [Event.isRequestToken]
  · simp only [APIKeyAuthenticator.GetToken, Bool.not_true, Bool.false_eq_true, if_false]
    rfl

/-- C8: when `GetToken` reaches the forced exchange, on either path, and the
exchange fails with error `e`, `GetToken` returns an empty token and the error
with description "Error fetching iam token using api key" and backend error
`e.Error()`; the exchange is made once, and nothing follows it in the call but
one log line, so no lifetime is computed on its result and it is not retried. -/
theorem GetToken_exchange_failure {σ W : Type} (c : Collaborators σ W)
    (aa : APIKeyAuthenticator σ) (w : W) (fresh : Bool) (a : core.IamAuthenticator σ) (w2 : W)
    (resp : Option core.IamTokenServerResponse) (e : GoError)
    (a2 : core.IamAuthenticator σ) (w3 : W)
    (hreach : ReachesExchange c aa w fresh a w2)
    (hreq : c.RequestToken a w2 = ((resp, some e), a2, w3)) :
    (aa.GetToken c w fresh).token = "" ∧
    (aa.GetToken c w fresh).err
      = some { Description := "Error fetching iam token using api key",
               BackendError := e.Error } ∧
    (aa.GetToken c w fresh).trace.countP Event.isRequestToken = 1 ∧
    ∃ pre : List (Event σ),
      (aa.GetToken c w fresh).trace
        = pre ++ [Event.RequestToken a, Event.Error "Error fetching fresh token" (some e)] ∧
      pre.countP Event.isRequestToken = 0 := by
  obtain ⟨l, tr, hG, hr, -, -⟩ := GetToken_eq_fetchFresh_of_reaches c aa w fresh a w2 hreach
  rw [hG]
  refine ⟨?_, ?_, ?_, tr ++ [Event.Info "Fetching fresh token"], ?_, ?_⟩
  · simp [APIKeyAuthenticator.fetchFresh, hreq]
  · simp [APIKeyAuthenticator.fetchFresh, hreq]
  · rw [fetchFresh_count_RequestToken, hr]
  · simp [APIKeyAuthenticator.fetchFresh, hreq]
  · simp [hr, Event.isRequestToken]

theorem GetToken_exchange_failure_witness :
    ReachesExchange scripted sampleAuth scriptStaleExchangeFail false sampleAuth.authenticator
      { scriptStaleExchangeFail with lifetimes := [] } ∧
    (sampleAuth.GetToken scripted scriptStaleExchangeFail false).token = "" ∧
    (sampleAuth.GetToken scripted scriptStaleExchangeFail false).err
      = some { Description := "Error fetching iam token using api key",
               BackendError := "connection refused" } ∧
    (sampleAuth.GetToken scripted scriptStaleExchangeFail false).trace.countP
      Event.isRequestToken = 1 ∧
    ∃ pre : List (Event Unit),
      (sampleAuth.GetToken scripted scriptStaleExchangeFail false).trace
        = pre ++ [Event.RequestToken sampleAuth.authenticator,
            Event.Error "Error fetching fresh token" (some { Error := "connection refused" })] ∧
      pre.countP Event.isRequestToken = 0 :=
  have hreach : ReachesExchange scripted sampleAuth scriptStaleExchangeFail false
      sampleAuth.authenticator { scriptStaleExchangeFail with lifetimes := [] } :=
    Or.inr ⟨rfl, "tok-A", scriptStaleExchangeFail, 0, { Error := "token expired" }, rfl, rfl⟩
  ⟨hreach, GetToken_exchange_failure scripted sampleAuth scriptStaleExchangeFail false
    sampleAuth.authenticator { scriptStaleExchangeFail with lifetimes := [] } none
    { Error := "connection refused" } sampleAuth.authenticator
    { scriptStaleExchangeFail with lifetimes := [] } hreach rfl⟩

/-- C6: when `GetToken` reaches the forced exchange, on either path, the
exchange succeeds with a non-nil response, and the lifetime computation on its
access token fails with error `e`, `GetToken` returns an empty token and the
error with description "Error fetching token lifetime" and backend error
`e.Error()`.  No fallback follows: the failed computation is followed by one
log line only, and over the whole call the exchange is made once and the cached
lookup at most once, before the exchange. -/
theorem GetToken_fresh_lifetime_failure {σ W : Type} (c : Collaborators σ W)
    (aa : APIKeyAuthenticator σ) (w : W) (fresh : Bool) (a : core.IamAuthenticator σ) (w2 : W)
    (resp : core.IamTokenServerResponse) (a2 : core.IamAuthenticator σ) (w3 w4 : W)
    (l : Nat) (e : GoError)
    (hreach : ReachesExchange c aa w fresh a w2)
    (hreq : c.RequestToken a w2 = ((some resp, none), a2, w3))
    (hlife : c.CheckTokenLifeTime resp.AccessToken w3 = ((l, some e), w4)) :
    (aa.GetToken c w fresh).token = "" ∧
    (aa.GetToken c w fresh).err
      = some { Description := "Error fetching token lifetime", BackendError := e.Error } ∧
    (aa.GetToken c w fresh).trace.countP Event.isRequestToken = 1 ∧
    ∃ pre : List (Event σ),
      (aa.GetToken c w fresh).trace
        = pre ++ [Event.RequestToken a, Event.CheckTokenLifeTime resp.AccessToken,
            Event.Error "Error fetching token lifetime for new token" (some e)] ∧
      pre.countP Event.isRequestToken = 0 ∧
      pre.countP Event.isGetToken = (if fresh then 0 else 1) := by
  obtain ⟨l0, tr, hG, hr, -, hg⟩ := GetToken_eq_fetchFresh_of_reaches c aa w fresh a w2 hreach
  rw [hG]
  refine ⟨?_, ?_, ?_, tr ++ [Event.Info "Fetching fresh token"], ?_, ?_, ?_⟩
  · simp [APIKeyAuthenticator.fetchFresh, hreq, hlife]
  · simp [APIKeyAuthenticator.fetchFresh, hreq, hlife]
  · rw [fetchFresh_count_RequestToken, hr]
  · simp [APIKeyAuthenticator.fetchFresh, hreq, hlife]
  · simp [hr, Event.isRequestToken]
  · simp [hg, Event.isGetToken]

theorem GetToken_fresh_lifetime_failure_witness :
    ReachesExchange scripted sampleAuth scriptFreshUndecodable true sampleAuth.authenticator
      scriptFreshUndecodable ∧
    (sampleAuth.GetToken scripted scriptFreshUndecodable true).token = "" ∧
    (sampleAuth.GetToken scripted scriptFreshUndecodable true).err
      = some { Description := "Error fetching token lifetime", BackendError := "undecodable" } ∧
    (sampleAuth.GetToken scripted scriptFreshUndecodable true).trace.countP
      Event.isRequestToken = 1 ∧
    ∃ pre : List (Event Unit),
      (sampleAuth.GetToken scripted scriptFreshUndecodable true).trace
        = pre ++ [Event.RequestToken sampleAuth.authenticator, Event.CheckTokenLifeTime "tok-B",
            Event.Error "Error fetching token lifetime for new token"
              (some { Error := "undecodable" })] ∧
      pre.countP Event.isRequestToken = 0 ∧
      pre.countP Event.isGetToken = (if true then 0 else 1) :=
  have hreach : ReachesExchange scripted sampleAuth scriptFreshUndecodable true
      sampleAuth.authenticator scriptFreshUndecodable := Or.inl ⟨rfl, rfl, rfl⟩
  ⟨hreach, GetToken_fresh_lifetime_failure scripted sampleAuth scriptFreshUndecodable true
    sampleAuth.authenticator scriptFreshUndecodable { AccessToken := "tok-B" }
    sampleAuth.authenticator scriptFreshUndecodable
    { scriptFreshUndecodable with lifetimes := [] } 7 { Error := "undecodable" } hreach rfl rfl⟩

/-- C5 fails as stated: on the stale-cache path the exchange is reached, it
returns `(nil, nil)`, and the lifetime inspector has been invoked once during
the call (on the cached token), not zero times. -/
theorem GetToken_empty_response_counterexample :
    ReachesExchange scripted sampleAuth scriptStaleEmpty false sampleAuth.authenticator
      { scriptStaleEmpty with lifetimes := [] } ∧
    scripted.RequestToken sampleAuth.authenticator { scriptStaleEmpty with lifetimes := [] }
      = ((none, none), sampleAuth.authenticator, { scriptStaleEmpty with lifetimes := [] }) ∧
    (sampleAuth.GetToken scripted scriptStaleEmpty false).trace.countP
      Event.isCheckTokenLifeTime = 1 ∧
    ¬ (sampleAuth.GetToken scripted scriptStaleEmpty false).trace.countP
      Event.isCheckTokenLifeTime = 0 :=
  ⟨Or.inr ⟨rfl, "tok-A", scriptStaleEmpty, 0, { Error := "token expired" }, rfl, rfl⟩,
    rfl, by decide, by decide⟩

/-- C5, amended: when `GetToken` reaches the forced exchange, on either path,
and the exchange returns no error and a nil response, `GetToken` returns an
empty token and the error whose description is `utils.ErrEmptyTokenResponse`,
with no backend error, which differs from every token-fetch-failed error.  No
lifetime computation is attempted on or after the exchange: after it comes one
log line only.  Over the whole call the inspector is invoked zero times when a
fresh token was demanded and exactly once on the stale-cache path, and that one
call is on the token the cached lookup returned, before the exchange. -/
theorem GetToken_empty_response {σ W : Type} (c : Collaborators σ W)
    (aa : APIKeyAuthenticator σ) (w : W) (fresh : Bool) (a : core.IamAuthenticator σ) (w2 : W)
    (a2 : core.IamAuthenticator σ) (w3 : W)
    (hreach : ReachesExchange c aa w fresh a w2)
    (hreq : c.RequestToken a w2 = ((none, none), a2, w3)) :
    (aa.GetToken c w fresh).token = "" ∧
    (aa.GetToken c w fresh).err
      = some { Description := utils.ErrEmptyTokenResponse, BackendError := "" } ∧
    (∀ b : String, (aa.GetToken c w fresh).err
        ≠ some { Description := "Error fetching iam token using api key", BackendError := b }) ∧
    (∃ pre : List (Event σ),
      (aa.GetToken c w fresh).trace
        = pre ++ [Event.RequestToken a, Event.Error "Token response received is empty" none] ∧
      pre.countP Event.isRequestToken = 0 ∧
      pre.filter Event.isCheckTokenLifeTime
        = (if fresh then []
            else [Event.CheckTokenLifeTime (c.GetToken aa.authenticator w).1.1])) ∧
    (aa.GetToken c w fresh).trace.filter Event.isCheckTokenLifeTime
      = (if fresh then []
          else [Event.CheckTokenLifeTime (c.GetToken aa.authenticator w).1.1]) ∧
    (aa.GetToken c w fresh).trace.countP Event.isCheckTokenLifeTime
      = (if fresh then 0 else 1) := by
  obtain ⟨l, tr, hG, hr, hf⟩ := GetToken_eq_fetchFresh_inspections c aa w fresh a w2 hreach
  have hc : tr.countP Event.isCheckTokenLifeTime = (if fresh then 0 else 1) := by
    rw [List.countP_eq_length_filter, hf]
    cases fresh <;> simp
  rw [hG]
  refine ⟨?_, ?_, ?_, ⟨tr ++ [Event.Info "Fetching fresh token"], ?_, ?_, ?_⟩, ?_, ?_⟩
  · simp [APIKeyAuthenticator.fetchFresh, hreq]
  · simp [APIKeyAuthenticator.fetchFresh, hreq]
  · intro b
    simp only [APIKeyAuthenticator.fetchFresh, hreq]
    intro h
    injection h with h
    injection h with h1 h2
    exact absurd h1 (by decide)
  · simp [APIKeyAuthenticator.fetchFresh, hreq]
  · simp [hr, Event.isRequestToken]
  · simp [hf, Event.isCheckTokenLifeTime]
  · simp [APIKeyAuthenticator.fetchFresh, hreq, hf, Event.isCheckTokenLifeTime]
  · simp [APIKeyAuthenticator.fetchFresh, hreq, hc, Event.isCheckTokenLifeTime]

theorem GetToken_empty_response_witness :
    ReachesExchange scripted sampleAuth scriptStaleEmpty false sampleAuth.authenticator
      { scriptStaleEmpty with lifetimes := [] } ∧
    scripted.RequestToken sampleAuth.authenticator { scriptStaleEmpty with lifetimes := [] }
      = ((none, none), sampleAuth.authenticator, { scriptStaleEmpty with lifetimes := [] }) ∧
    (sampleAuth.GetToken scripted scriptStaleEmpty false).token = "" ∧
    (sampleAuth.GetToken scripted scriptStaleEmpty false).err
      = some { Description := "Empty token response received", BackendError := "" } ∧
    (∀ b : String, (sampleAuth.GetToken scripted scriptStaleEmpty false).err
        ≠ some { Description := "Error fetching iam token using api key", BackendError := b }) ∧
    (∃ pre : List (Event Unit),
      (sampleAuth.GetToken scripted scriptStaleEmpty false).trace
        = pre ++ [Event.RequestToken sampleAuth.authenticator,
            Event.Error "Token response received is empty" none] ∧
      pre.countP Event.isRequestToken = 0 ∧
      pre.filter Event.isCheckTokenLifeTime
        = (if false then []
            else [Event.CheckTokenLifeTime
              (scripted.GetToken sampleAuth.authenticator scriptStaleEmpty).1.1])) ∧
    (sampleAuth.GetToken scripted scriptStaleEmpty false).trace.filter Event.isCheckTokenLifeTime
      = (if false then []
          else [Event.CheckTokenLifeTime
            (scripted.GetToken sampleAuth.authenticator scriptStaleEmpty).1.1]) ∧
    (sampleAuth.GetToken scripted scriptStaleEmpty false).trace.countP
      Event.isCheckTokenLifeTime = (if false then 0 else 1) ∧
    (scripted.GetToken sampleAuth.authenticator scriptStaleEmpty).1.1 = "tok-A" :=
  have hreach : ReachesExchange scripted sampleAuth scriptStaleEmpty false
      sampleAuth.authenticator { scriptStaleEmpty with lifetimes := [] } :=
    Or.inr ⟨rfl, "tok-A", scriptStaleEmpty, 0, { Error := "token expired" }, rfl, rfl⟩
  have h := GetToken_empty_response scripted sampleAuth scriptStaleEmpty false
    sampleAuth.authenticator { scriptStaleEmpty with lifetimes := [] }
    sampleAuth.authenticator { scriptStaleEmpty with lifetimes := [] } hreach rfl
  ⟨hreach, rfl, h.1, h.2.1, h.2.2.1, h.2.2.2.1, h.2.2.2.2.1, h.2.2.2.2.2, rfl⟩

/-! ## No partial results -/

/-- C7 fails as stated: when the inspector returns 7 together with its error
for a freshly exchanged token, `GetToken` returns the error and an empty token,
but the lifetime it returns is 7, not 0. -/
theorem GetToken_no_partial_result_counterexample :
    scripted.CheckTokenLifeTime "tok-B" scriptFreshUndecodable
      = ((7, some { Error := "undecodable" }), { scriptFreshUndecodable with lifetimes := [] }) ∧
    (sampleAuth.GetToken scripted scriptFreshUndecodable true).token = "" ∧
    (sampleAuth.GetToken scripted scriptFreshUndecodable true).err
      = some { Description := "Error fetching token lifetime", BackendError := "undecodable" } ∧
    (sampleAuth.GetToken scripted scriptFreshUndecodable true).lifetime = 7 ∧
    ¬ (sampleAuth.GetToken scripted scriptFreshUndecodable true).lifetime = 0 :=
  ⟨rfl, rfl, rfl, rfl, by decide⟩

/-- C7, amended: for every value of `freshTokenRequired` and every behaviour of
the collaborators, either the error is nil and the returned lifetime is the
value the lifetime inspector computed without error for the returned token
(in the call that left the final environment), or the error is non-nil, the
token is the empty string, and the lifetime is 0 or the value the inspector
returned together with an error for a token it was asked about in this call. -/
theorem GetToken_no_partial_result {σ W : Type} (c : Collaborators σ W)
    (aa : APIKeyAuthenticator σ) (w : W) (fresh : Bool) :
    ((aa.GetToken c w fresh).err = none ∧
      ∃ wa : W, c.CheckTokenLifeTime (aa.GetToken c w fresh).token wa
        = (((aa.GetToken c w fresh).lifetime, none), (aa.GetToken c w fresh).world)) ∨
    ((aa.GetToken c w fresh).err ≠ none ∧ (aa.GetToken c w fresh).token = "" ∧
      ((aa.GetToken c w fresh).lifetime = 0 ∨
        ∃ (tok : String) (wa wb : W) (e : GoError),
          Event.CheckTokenLifeTime tok ∈ (aa.GetToken c w fresh).trace ∧
          c.CheckTokenLifeTime tok wa = (((aa.GetToken c w fresh).lifetime, some e), wb))) := by
  cases fresh with
  | true =>
    simp only [APIKeyAuthenticator.GetToken, Bool.not_true, Bool.false_eq_true, if_false]
    exact fetchFresh_shape c aa w 0 _
  | false =>
    rcases hget : c.GetToken aa.authenticator w with ⟨⟨t, err⟩, a1, w1⟩
    cases err with
    | some e =>
      right
      simp [APIKeyAuthenticator.GetToken, hget]
    | none =>
      rcases hlife : c.CheckTokenLifeTime t w1 with ⟨⟨l0, err0⟩, w2⟩
      cases err0 with
      | none =>
        left
        exact ⟨by simp [APIKeyAuthenticator.GetToken, hget, hlife], w1,
          by simp [APIKeyAuthenticator.GetToken, hget, hlife]⟩
      | some e0 =>
        rw [GetToken_stale_eq c aa w t l0 e0 a1 w1 w2 hget hlife]
        rcases fetchFresh_shape c { aa with authenticator := a1 } w2 l0
          [Event.Info "Fetching IAM token using api key authenticator",
            Event.Info "Request received to fetch existing token",
            Event.GetToken aa.authenticator, Event.CheckTokenLifeTime t,
            Event.Error "Error fetching token lifetime of existing token" (some e0)]
          with hok | ⟨hne, htok, hl | hex⟩
        · exact Or.inl hok
        · refine Or.inr ⟨hne, htok, Or.inr ⟨t, w1, w2, e0, ?_, ?_⟩⟩
          · exact fetchFresh_trace_mem c _ w2 l0 _ _ (by simp)
          · rw [hl, hlife]
        · exact Or.inr ⟨hne, htok, Or.inr hex⟩

/-! ## The secret -/

/-- C9: `GetSecret` after `SetSecret x` returns `x`, for every `x`; `GetSecret`
on what `NewIamAuthenticator k logger` returns is `k`; and `SetSecret` leaves
the endpoint URL, the `isSecretEncrypted` flag, the logger and the remaining
SDK fields as they were. -/
theorem GetSecret_SetSecret {σ : Type} [Inhabited σ] (aa : APIKeyAuthenticator σ)
    (x k : String) (logger : zap.Logger) :
    (aa.SetSecret x).GetSecret = x ∧
    (NewIamAuthenticator k logger : APIKeyAuthenticator σ × List (Event σ)).1.GetSecret = k ∧
    (aa.SetSecret x).authenticator.URL = aa.authenticator.URL ∧
    (aa.SetSecret x).IsSecretEncrypted = aa.IsSecretEncrypted ∧
    (aa.SetSecret x).logger = aa.logger ∧
    (aa.SetSecret x).authenticator.unexported = aa.authenticator.unexported :=
  ⟨rfl, rfl, rfl, rfl, rfl, rfl⟩

/-- C10: after `SetSecret k1`, a call `GetToken(true)` makes its forced exchange
on an SDK authenticator whose `ApiKey` is `k1`, whatever the key was before:
the exchange is the first collaborator call, its receiver is the old one with
`ApiKey := k1`, no other exchange follows, and the whole result is the same
for every earlier key `k0`. -/
theorem GetToken_after_SetSecret {σ W : Type} (c : Collaborators σ W)
    (aa : APIKeyAuthenticator σ) (w : W) (k1 : String) :
    ∃ post : List (Event σ),
      ((aa.SetSecret k1).GetToken c w true).trace
        = [Event.Info "Fetching IAM token using api key authenticator",
            Event.Info "Fetching fresh token",
            Event.RequestToken
              { ApiKey := k1, URL := aa.authenticator.URL,
                unexported := aa.authenticator.unexported }] ++ post ∧
      post.countP Event.isRequestToken = 0 ∧
      (aa.SetSecret k1).GetToken c w true
        = (aa.SetSecret k1).fetchFresh c w 0
            [Event.Info "Fetching IAM token using api key authenticator"] ∧
      (aa.SetSecret k1).authenticator.ApiKey = k1 ∧
      ∀ k0 : String,
        ((aa.SetSecret k0).SetSecret k1).GetToken c w true = (aa.SetSecret k1).GetToken c w true := by
  obtain ⟨post, hp, hr, -⟩ := fetchFresh_trace c (aa.SetSecret k1) w 0
    [Event.Info "Fetching IAM token using api key authenticator"]
  refine ⟨post, ?_, hr, rfl, rfl, fun _ => rfl⟩
  simp only [APIKeyAuthenticator.GetToken, Bool.not_true, Bool.false_eq_true, if_false]
  rw [hp]
  rfl

end authenticator
